import Mathlib

/-!
Shallow embedding of the request-dispatch core of the tencent
vectordatabase-sdk-go repository, together with theorems checking the
natural-language specification against it.

The embedded source files:
  * `tcvectordb/vdb_client.go` — the Dispatcher (`Request`, `handleResponse`),
    configuration resolution (`optionMerge`, `defaultOption`) and client
    construction (`NewClient` / `newClient`);
  * `internal/engine/database.go` — the engine-generation database handle
    (`DropDatabase`, `CreateDatabase`) and the non-gated alias handle
    (`SetAlias`, `DeleteAlias`);
  * the unnamed engine file with the AI-gated alias handle (`SetAlias`,
    `DeleteAlias` guarded by `IsAIDatabase`).

Wire bodies are modelled as parsed JSON values (`Json`); a body that is not
valid JSON is `Body.invalid raw`.  Go's `error` interface is modelled by the
closed type `GoError`, whose `message` function renders each error the way the
Go code formats it (the only message any embedded code inspects is the
"not exist" substring check in `DropDatabase`).
-/

namespace Vdb

/-- A JSON value: the wire format of request and response bodies.  Numbers are
modelled as integers; no embedded claim involves fractional numbers. -/
inductive Json where
  | null : Json
  | bool (b : Bool) : Json
  | num (n : Int) : Json
  | str (s : String) : Json
  | arr (xs : List Json) : Json
  | obj (fields : List (String × Json)) : Json

/-- A raw response body: either bytes that parse as JSON, or invalid bytes
(kept verbatim).  `json.Valid` in the Go source corresponds to the body being
`parsed`. -/
inductive Body where
  | invalid (raw : String) : Body
  | parsed (j : Json) : Body

/-- Renders a JSON value back to its textual form, used only when an error
message embeds the response body. -/
def Json.render : Json → String
  | .null => "null"
  | .bool b => if b then "true" else "false"
  | .num n => toString n
  | .str s => "\"" ++ s ++ "\""
  | .arr xs => "[" ++ String.intercalate "," (xs.attach.map fun x => Json.render x.1) ++ "]"
  | .obj fs => "\x7b" ++
      String.intercalate ","
        (fs.attach.map fun f => "\"" ++ f.1.1 ++ "\":" ++ Json.render f.1.2) ++ "\x7d"
decreasing_by
  all_goals simp_wf
  all_goals first
    | (have h := List.sizeOf_lt_of_mem x.2; omega)
    | (have h1 : sizeOf f.1 < sizeOf fs := List.sizeOf_lt_of_mem f.2
       have h2 : sizeOf f.1.2 < sizeOf f.1 := by
         obtain ⟨a, b⟩ := f.1
         simp only [Prod.mk.sizeOf_spec]
         omega
       omega)

/-- The raw text of a body: invalid bytes verbatim, or the JSON rendered. -/
def Body.text : Body → String
  | .invalid raw => raw
  | .parsed j => j.render

/-- The Go `error` values produced by the embedded code.  Each constructor is
one `errors.Errorf` / `errors.New` / `errors.Wrapf` site of the source. -/
inductive GoError where
  /-- `errors.Errorf("response code is %d, %s", ...)`: non-2xx HTTP status. -/
  | transportError (status : Nat) (body : Body)
  /-- `errors.Errorf("invalid response content: %s", ...)`: body fails `json.Valid`. -/
  | invalidContent (body : Body)
  /-- `errors.Wrapf(err, "json.Unmarshal failed with content:%s", ...)`: a 2xx
  JSON body fails to decode into the envelope or into the caller's result. -/
  | unmarshalFailed (body : Body)
  /-- `errors.Errorf("code: %d, message: %s", ...)`: envelope code is non-zero. -/
  | serviceError (code : Int) (msg : String)
  /-- `fmt.Errorf("%w, %#v", err, req)`: the request value failed to encode. -/
  | encodeError (method path : String)
  /-- an error returned by `http.Client.Do` (connection failure, timeout). -/
  | httpDoError
  /-- Modelled from the spec: `entity.AIDbTypeError`, the Capability Mismatch
  Error raised locally by gated operations; its declaration is absent from
  `src/`. -/
  | aiDbTypeError
  /-- a generic `errors.New` / `errors.Errorf` message. -/
  | errorf (msg : String)

/-- The string `Error()` would return for each error, following the Go format
strings verbatim. -/
def GoError.message : GoError → String
  | .transportError status body => "response code is " ++ toString status ++ ", " ++ body.text
  | .invalidContent body => "invalid response content: " ++ body.text
  | .unmarshalFailed body => "json.Unmarshal failed with content:" ++ body.text
  | .serviceError code msg => "code: " ++ toString code ++ ", message: " ++ msg
  | .encodeError method path => "json encode failed for " ++ method ++ " " ++ path
  | .httpDoError => "http do error"
  | .aiDbTypeError => "ai database not support this operation"
  | .errorf msg => msg

/-- Classification of an error as a Malformed Response Error in the spec's
taxonomy: the body is not valid structured data, or fails to decode into the
expected envelope/result shape. -/
def GoError.isMalformedResponse : GoError → Bool
  | .invalidContent _ => true
  | .unmarshalFailed _ => true
  | _ => false

/-- `strings.Contains s sub`. -/
def stringContains (s sub : String) : Bool :=
  decide (sub.toList <:+: s.toList)

/-- `strings.HasPrefix s p`: `p` begins `s`. -/
def stringHasPre (s p : String) : Bool :=
  decide (p.toList <+: s.toList)

/-- Looks up a key in a decoded JSON object.  Go's decoder lets a later
duplicate key overwrite an earlier one, hence the reversed search; field-name
matching is modelled as exact (no claim exercises Go's case-insensitive
fallback). -/
def jsonLookup (fields : List (String × Json)) (k : String) : Option Json :=
  (fields.reverse.find? fun p => p.1 == k).map Prod.snd

/-- `json.Unmarshal` of a body into `CommmonResponse{Code int32; Msg string}`:
succeeds with the envelope `(code, msg)` when the body is a JSON object (or
`null`, which leaves the struct at its zero value); missing or `null` fields
keep their zero values; a field of the wrong shape, or a non-object body,
fails. -/
def decodeCommonRes : Json → Option (Int × String)
  | .null => some (0, "")
  | .obj fields =>
      (match jsonLookup fields "code" with
        | none => some 0
        | some .null => some 0
        | some (.num n) => some n
        | some _ => none).bind fun code =>
      (match jsonLookup fields "msg" with
        | none => some ""
        | some .null => some ""
        | some (.str s) => some s
        | some _ => none).bind fun msg =>
      some (code, msg)
  | _ => none

/-- An HTTP response as `handleResponse` receives it: status code plus the
fully read body (`io.ReadAll` is modelled as already done). -/
structure HttpResponse where
  statusCode : Nat
  body : Body

/-- A debug log record: the two `log.Printf` sites of the Dispatcher. -/
inductive LogRecord where
  /-- `[DEBUG] REQUEST, Method: %s, Path: %s, Body: %s`. -/
  | request (method path : String) (body : Json)
  /-- `[DEBUG] RESPONSE: %d %s`. -/
  | response (status : Nat) (body : Body)

/-- `(*Client).handleResponse` from `vdb_client.go`: classifies the HTTP
response and decodes the result.  `debug` is the client's debug flag; the
caller's output parameter is threaded explicitly (`out` in, updated value
out), and the decode of the body into the typed result is the parameter
`decodeOut`.  Returns (debug log records, final out value, error). -/
def handleResponse (debug : Bool) (res : HttpResponse)
    (decodeOut : Json → Option α) (out : α) :
    List LogRecord × α × Option GoError :=
  let dlog := if debug then [LogRecord.response res.statusCode res.body] else []
  if res.statusCode / 100 ≠ 2 then
    (dlog, out, some (.transportError res.statusCode res.body))
  else
    match res.body with
    | .invalid raw => (dlog, out, some (.invalidContent (.invalid raw)))
    | .parsed j =>
        match decodeCommonRes j with
        | none => (dlog, out, some (.unmarshalFailed (.parsed j)))
        | some (code, msg) =>
            if code ≠ 0 then
              (dlog, out, some (.serviceError code msg))
            else
              match decodeOut j with
              | none => (dlog, out, some (.unmarshalFailed (.parsed j)))
              | some v => (dlog, v, none)

/-- The `Client` struct of `vdb_client.go`, restricted to the fields the
embedded behavior reads (the inner `http.Client` and its transport are the
network boundary, modelled as the `transport` parameter of `Request`). -/
structure ReadConsistencyT where
  value : String
  deriving DecidableEq

/-- Modelled from the spec: `api.EventualConsistency`, the default read
consistency constant, whose declaration is absent from `src/`; the spec only
requires it to be the non-zero "Eventual" mode. -/
def EventualConsistency : ReadConsistencyT := ⟨"eventualConsistency"⟩

/-- `ClientOption` from `vdb_client.go`.  Durations are `time.Duration`
nanosecond counts (`Int`); the custom transport is abstracted to whether one
was supplied. -/
structure ClientOption where
  Timeout : Int
  MaxIdldConnPerHost : Int
  IdleConnTimeout : Int
  ReadConsistency : ReadConsistencyT
  TransportSet : Bool
  deriving DecidableEq

/-- `time.Second` in nanoseconds. -/
def timeSecond : Int := 1000000000

/-- `time.Minute` in nanoseconds. -/
def timeMinute : Int := 60 * timeSecond

/-- `defaultOption` from `vdb_client.go`. -/
def defaultOption : ClientOption :=
  { Timeout := 5 * timeSecond
    MaxIdldConnPerHost := 2
    IdleConnTimeout := timeMinute
    ReadConsistency := EventualConsistency
    TransportSet := false }

/-- `optionMerge` from `vdb_client.go`: fills every zero-valued defaultable
field from `defaultOption`. -/
def optionMerge (option : ClientOption) : ClientOption :=
  let option := if option.Timeout = 0 then { option with Timeout := defaultOption.Timeout } else option
  let option := if option.IdleConnTimeout = 0 then { option with IdleConnTimeout := defaultOption.IdleConnTimeout } else option
  let option := if option.MaxIdldConnPerHost = 0 then { option with MaxIdldConnPerHost := defaultOption.MaxIdldConnPerHost } else option
  let option := if option.ReadConsistency = ⟨""⟩ then { option with ReadConsistency := defaultOption.ReadConsistency } else option
  option

/-- The `Client` struct fields relevant to the embedded behavior. -/
structure Client where
  url : String
  username : String
  key : String
  option : ClientOption
  debug : Bool

/-- `newClient` from `vdb_client.go`: validates the URL shape and the
credentials, then builds the client (the `http.Client`/transport wiring is
connection-pool state outside this model). -/
def newClient (url username key : String) (option : ClientOption) :
    Except GoError Client :=
  if ¬ stringHasPre url "http" then
    .error (.errorf ("invalid url param with: " ++ url))
  else if username = "" ∨ key = "" then
    .error (.errorf "username or key is empty")
  else
    .ok { url := url, username := username, key := key
          option := optionMerge option, debug := false }

/-- `NewClient` from `vdb_client.go`: substitutes `defaultOption` for a nil
option pointer and merges before delegating. -/
def NewClient (url username key : String) (option : Option ClientOption) :
    Except GoError Client :=
  newClient url username key (optionMerge (option.getD defaultOption))

/-- A typed API request as the Dispatcher sees it: the verb and path that
`api.Method`/`api.Path` resolve from its operation kind, and the outcome of
JSON-encoding the value (`none` models an encoder failure). -/
structure ApiRequest where
  method : String
  path : String
  body : Option Json

/-- Modelled from the spec: the `SDKVersion` client-version marker constant,
whose declaration is absent from `src/`. -/
def SDKVersion : String := "sdk-version"

/-- The outgoing wire request `(*Client).Request` builds: upper-cased verb,
url+path, encoded body, and the three headers. -/
structure WireRequest where
  method : String
  url : String
  body : Json
  authorization : String
  contentType : String
  sdkVersion : String

/-- The wire request built for `req` with encoded body `body` on client `c`. -/
def mkWireRequest (c : Client) (req : ApiRequest) (body : Json) : WireRequest :=
  { method := req.method.toUpper
    url := c.url ++ req.path
    body := body
    authorization := "Bearer account=" ++ c.username ++ "&api_key=" ++ c.key
    contentType := "application/json"
    sdkVersion := SDKVersion }

/-- `(*Client).Request` from `vdb_client.go`: encode the request, build the
wire request, optionally log it, send it through the transport (the pooled
`http.Client.Do`, abstracted as a function to an optional response, `none`
being a connection failure), and hand a response to `handleResponse`.
Returns (debug log records, final out value, error). -/
def Request (c : Client) (req : ApiRequest)
    (transport : WireRequest → Option HttpResponse)
    (decodeOut : Json → Option α) (out : α) :
    List LogRecord × α × Option GoError :=
  match req.body with
  | none => ([], out, some (.encodeError req.method req.path))
  | some body =>
      let wire := mkWireRequest c req body
      let reqLog := if c.debug then [LogRecord.request req.method req.path body] else []
      match transport wire with
      | none => (reqLog, out, some .httpDoError)
      | some response =>
          let (respLog, outv, err) := handleResponse c.debug response decodeOut out
          (reqLog ++ respLog, outv, err)

/-! ## Capability handles

The engine-generation database and alias handles.  Each handle's `Request`
call is abstracted as a function from the request struct to the pair (filled
response struct, returned error), exactly the observable behavior of the
`SdkClient` the handle embeds. -/

/-- Modelled from the spec: the kind a Database Handle records, Ordinary
(base) or AI-managed; `entity.Database`'s kind field is absent from `src/`. -/
inductive DbKind where
  | base : DbKind
  | ai : DbKind
  deriving DecidableEq

/-- The scope identifiers of an `entity.Database` handle as the gated alias
implementor reads them: the database name and its kind. -/
structure Database where
  DatabaseName : String
  kind : DbKind

/-- Modelled from the spec: `entity.Database.IsAIDatabase`, absent from
`src/`; per the spec it tests the databaseKind recorded at creation. -/
def IsAIDatabase (db : Database) : Bool :=
  match db.kind with
  | .ai => true
  | .base => false

/-- `alias.SetReq`: the request struct `SetAlias` fills. -/
structure SetReq where
  Database : String
  Collection : String
  Alias : String

/-- `alias.DeleteReq`: the request struct `DeleteAlias` fills. -/
structure DeleteReq where
  Database : String
  Alias : String

/-- `alias.SetRes` (declaration absent from `src/`; the embedded code reads
exactly its `AffectedCount` field). -/
structure SetRes where
  AffectedCount : Int

/-- `alias.DeleteRes` (declaration absent from `src/`; the embedded code
reads exactly its `AffectedCount` field). -/
structure DeleteRes where
  AffectedCount : Int

/-- `entity.SetAliasResult`; `new(entity.SetAliasResult)` is the zero value
`⟨0⟩`. -/
structure SetAliasResult where
  AffectedCount : Int

/-- `entity.DeleteAliasResult`. -/
structure DeleteAliasResult where
  AffectedCount : Int

/-- `(*implementerAlias).SetAlias` of the AI-gated generation (the unnamed
engine source file): rejects AI databases locally, otherwise dispatches one
request.  The second component counts how many times `Request` was invoked;
the result component is `none` exactly when Go returns a nil result pointer. -/
def gatedSetAlias (db : Database) (collectionName aliasName : String)
    (request : SetReq → SetRes × Option GoError) :
    (Option SetAliasResult × Option GoError) × Nat :=
  if IsAIDatabase db then
    ((none, some .aiDbTypeError), 0)
  else
    let req : SetReq := ⟨db.DatabaseName, collectionName, aliasName⟩
    let (res, err) := request req
    match err with
    | some e => ((some ⟨0⟩, some e), 1)
    | none => ((some ⟨res.AffectedCount⟩, none), 1)

/-- `(*implementerAlias).DeleteAlias` of the AI-gated generation. -/
def gatedDeleteAlias (db : Database) (aliasName : String)
    (request : DeleteReq → DeleteRes × Option GoError) :
    (Option DeleteAliasResult × Option GoError) × Nat :=
  if IsAIDatabase db then
    ((none, some .aiDbTypeError), 0)
  else
    let req : DeleteReq := ⟨db.DatabaseName, aliasName⟩
    let (res, err) := request req
    match err with
    | some e => ((some ⟨0⟩, some e), 1)
    | none => ((some ⟨res.AffectedCount⟩, none), 1)

/-- `(*implementerAlias).SetAlias` of the non-gated, database-scoped
generation (`internal/engine/database.go`): `result` is allocated before the
dispatch, so a dispatch error is returned alongside the zero-valued result. -/
def engineSetAlias (databaseName collectionName aliasName : String)
    (request : SetReq → SetRes × Option GoError) :
    Option SetAliasResult × Option GoError :=
  let req : SetReq := ⟨databaseName, collectionName, aliasName⟩
  let (res, err) := request req
  match err with
  | some e => (some ⟨0⟩, some e)
  | none => (some ⟨res.AffectedCount⟩, none)

/-- `(*implementerAlias).DeleteAlias` of the non-gated, database-scoped
generation (`internal/engine/database.go`). -/
def engineDeleteAlias (databaseName aliasName : String)
    (request : DeleteReq → DeleteRes × Option GoError) :
    Option DeleteAliasResult × Option GoError :=
  let req : DeleteReq := ⟨databaseName, aliasName⟩
  let (res, err) := request req
  match err with
  | some e => (some ⟨0⟩, some e)
  | none => (some ⟨res.AffectedCount⟩, none)

/-- `database.DropReq`. -/
structure DropReq where
  Database : String

/-- `database.DropRes` (declaration absent from `src/`; modelled from the
spec's result convention as carrying an affected count — the engine
`DropDatabase` discards it either way). -/
structure DropRes where
  AffectedCount : Int

/-- `(*implementerDatabase).DropDatabase` from `internal/engine/database.go`:
dispatches the drop and absorbs any error whose message contains
"not exist".  Its Go signature is `(err error)`: the only caller-visible
return is the error. -/
def engineDropDatabase (request : DropReq → DropRes × Option GoError)
    (name : String) : Option GoError :=
  let (_res, err) := request ⟨name⟩
  match err with
  | some e => if stringContains e.message "not exist" then none else some e
  | none => none

/-- The complete caller-visible return of the engine `DropDatabase`: the Go
signature declares only `(err error)`, so the result slot of the returned
pair is constantly `none` — no result value reaches the caller.  The pair
form exists to state claims that speak about "the result DropDatabase
returns". -/
def engineDropDatabaseReturn (request : DropReq → DropRes × Option GoError)
    (name : String) : Option DropRes × Option GoError :=
  (none, engineDropDatabase request name)

/-! ## Theorems -/

/-- Helper: the closed form of `optionMerge`. -/
theorem optionMerge_closed_form (o : ClientOption) :
    optionMerge o =
      { Timeout := if o.Timeout = 0 then 5 * timeSecond else o.Timeout
        MaxIdldConnPerHost := if o.MaxIdldConnPerHost = 0 then 2 else o.MaxIdldConnPerHost
        IdleConnTimeout := if o.IdleConnTimeout = 0 then timeMinute else o.IdleConnTimeout
        ReadConsistency := if o.ReadConsistency = ⟨""⟩ then EventualConsistency else o.ReadConsistency
        TransportSet := o.TransportSet } := by
  obtain ⟨t, m, i, r, tr⟩ := o
  simp only [optionMerge, defaultOption]
  by_cases h1 : t = 0 <;> by_cases h2 : i = 0 <;> by_cases h3 : m = 0 <;>
    by_cases h4 : r = (⟨""⟩ : ReadConsistencyT) <;>
    simp [h1, h2, h3, h4]

/-- C5: configuration resolution (`optionMerge`) is total and pure: every
zero-valued field among Timeout, MaxIdldConnPerHost, IdleConnTimeout and
ReadConsistency is replaced by its fixed default — timeout 5s, max-idle 2,
idle-timeout 60s (`time.Minute`), consistency eventual — every non-zero field
is preserved unchanged (including the untouched transport), and no error is
ever produced (the function is total by construction: it returns a
`ClientOption` for every input). -/
theorem optionMerge_fills_defaults (o : ClientOption) :
    optionMerge o =
      { Timeout := if o.Timeout = 0 then 5 * timeSecond else o.Timeout
        MaxIdldConnPerHost := if o.MaxIdldConnPerHost = 0 then 2 else o.MaxIdldConnPerHost
        IdleConnTimeout := if o.IdleConnTimeout = 0 then timeMinute else o.IdleConnTimeout
        ReadConsistency := if o.ReadConsistency = ⟨""⟩ then EventualConsistency else o.ReadConsistency
        TransportSet := o.TransportSet } :=
  optionMerge_closed_form o

/-- Helper: the closed form of one merged field, convenient below. -/
theorem optionMerge_eta (o : ClientOption) :
    (optionMerge o).Timeout = (if o.Timeout = 0 then 5 * timeSecond else o.Timeout) ∧
    (optionMerge o).MaxIdldConnPerHost = (if o.MaxIdldConnPerHost = 0 then 2 else o.MaxIdldConnPerHost) ∧
    (optionMerge o).IdleConnTimeout = (if o.IdleConnTimeout = 0 then timeMinute else o.IdleConnTimeout) ∧
    (optionMerge o).ReadConsistency = (if o.ReadConsistency = ⟨""⟩ then EventualConsistency else o.ReadConsistency) ∧
    (optionMerge o).TransportSet = o.TransportSet := by
  rw [optionMerge_closed_form]
  exact ⟨rfl, rfl, rfl, rfl, rfl⟩

/-- C6: the resolved configuration never has a defaultable field at its zero
value; `optionMerge` is idempotent; and a configuration whose four
defaultable fields are already non-zero is returned unchanged. -/
theorem optionMerge_nonzero_idempotent (o : ClientOption) :
    ((optionMerge o).Timeout ≠ 0 ∧ (optionMerge o).MaxIdldConnPerHost ≠ 0 ∧
     (optionMerge o).IdleConnTimeout ≠ 0 ∧ (optionMerge o).ReadConsistency ≠ ⟨""⟩)
  ∧ optionMerge (optionMerge o) = optionMerge o
  ∧ (o.Timeout ≠ 0 → o.MaxIdldConnPerHost ≠ 0 → o.IdleConnTimeout ≠ 0 →
     o.ReadConsistency ≠ ⟨""⟩ → optionMerge o = o) := by
  obtain ⟨hT, hM, hI, hR, _⟩ := optionMerge_eta o
  have nonzero : (optionMerge o).Timeout ≠ 0 ∧ (optionMerge o).MaxIdldConnPerHost ≠ 0 ∧
      (optionMerge o).IdleConnTimeout ≠ 0 ∧ (optionMerge o).ReadConsistency ≠ ⟨""⟩ := by
    refine ⟨?_, ?_, ?_, ?_⟩
    · rw [hT]; split
      · decide
      · simp_all
    · rw [hM]; split
      · decide
      · simp_all
    · rw [hI]; split
      · decide
      · simp_all
    · rw [hR]; split
      · decide
      · simp_all
  refine ⟨nonzero, ?_, ?_⟩
  · obtain ⟨n1, n2, n3, n4⟩ := nonzero
    rw [optionMerge_closed_form (optionMerge o)]
    simp [n1, n2, n3, n4]
  · intro h1 h2 h3 h4
    rw [optionMerge_closed_form]
    simp [h1, h2, h3, h4]

/-- Witness for C6: a fully specified configuration is a fixed point of
`optionMerge`, and its resolution has no zero field. -/
theorem optionMerge_nonzero_idempotent_witness :
    optionMerge ⟨1, 1, 1, ⟨"strongConsistency"⟩, false⟩ = ⟨1, 1, 1, ⟨"strongConsistency"⟩, false⟩ ∧
    (optionMerge ⟨1, 1, 1, ⟨"strongConsistency"⟩, false⟩).Timeout ≠ 0 :=
  ⟨(optionMerge_nonzero_idempotent ⟨1, 1, 1, ⟨"strongConsistency"⟩, false⟩).2.2
      (by decide) (by decide) (by decide) (by decide),
   (optionMerge_nonzero_idempotent ⟨1, 1, 1, ⟨"strongConsistency"⟩, false⟩).1.1⟩

/-- C7: client construction fails exactly when the URL does not start with
"http", or the account identifier is empty, or the API key is empty; on
success the returned client holds exactly the supplied url, username and key
(and the merged option, with debug off).  The validation is a pure local
check: the embedding contains no transport, and `newClient` consults none. -/
theorem newClient_validation (url username key : String) (o : ClientOption)
    (o2 : Option ClientOption) :
    ((∃ e, newClient url username key o = .error e) ↔
      (¬ stringHasPre url "http" ∨ username = "" ∨ key = ""))
  ∧ (∀ c, newClient url username key o = .ok c →
      c.url = url ∧ c.username = username ∧ c.key = key ∧
      c.option = optionMerge o ∧ c.debug = false)
  ∧ ((∃ e, NewClient url username key o2 = .error e) ↔
      (¬ stringHasPre url "http" ∨ username = "" ∨ key = "")) := by
  have main : ∀ opt : ClientOption,
      ((∃ e, newClient url username key opt = .error e) ↔
        (¬ stringHasPre url "http" ∨ username = "" ∨ key = "")) ∧
      (∀ c, newClient url username key opt = .ok c →
        c.url = url ∧ c.username = username ∧ c.key = key ∧
        c.option = optionMerge opt ∧ c.debug = false) := by
    intro opt
    by_cases hu : stringHasPre url "http" <;> by_cases hn : username = "" <;>
      by_cases hk : key = "" <;>
      simp [newClient, hu, hn, hk]
  refine ⟨(main o).1, (main o).2, ?_⟩
  unfold NewClient
  exact (main (optionMerge (o2.getD defaultOption))).1

/-- Witness for C7: constructing with a well-formed URL and non-empty
credentials succeeds and the client holds them verbatim. -/
theorem newClient_validation_witness :
    (newClient "http://host:8100" "root" "key0" defaultOption =
      .ok { url := "http://host:8100", username := "root", key := "key0"
            option := optionMerge defaultOption, debug := false }) ∧
    ({ url := "http://host:8100", username := "root", key := "key0"
       option := optionMerge defaultOption, debug := false } : Client).url = "http://host:8100" := by
  have h : newClient "http://host:8100" "root" "key0" defaultOption =
      .ok { url := "http://host:8100", username := "root", key := "key0"
            option := optionMerge defaultOption, debug := false } := by
    unfold newClient
    rw [if_neg, if_neg]
    · simp
    · decide
  exact ⟨h, ((newClient_validation "http://host:8100" "root" "key0" defaultOption none).2.1
      _ h).1⟩

/-! ## Dispatcher classification helpers -/

/-- The value component of `handleResponse` in closed form: the debug log
never feeds back into it. -/
theorem handleResponse_val (debug : Bool) (res : HttpResponse)
    (decodeOut : Json → Option α) (out : α) :
    (handleResponse debug res decodeOut out).2 =
      if res.statusCode / 100 ≠ 2 then
        (out, some (.transportError res.statusCode res.body))
      else
        match res.body with
        | .invalid raw => (out, some (.invalidContent (.invalid raw)))
        | .parsed j =>
            match decodeCommonRes j with
            | none => (out, some (.unmarshalFailed (.parsed j)))
            | some (code, msg) =>
                if code ≠ 0 then
                  (out, some (.serviceError code msg))
                else
                  match decodeOut j with
                  | none => (out, some (.unmarshalFailed (.parsed j)))
                  | some v => (v, none) := by
  unfold handleResponse
  dsimp only
  split
  · rfl
  · split
    · rfl
    · split
      · rfl
      · split
        · rfl
        · split
          · rfl
          · rfl

/-- The log component of `handleResponse` in closed form: exactly one
response record when debug is on, nothing otherwise. -/
theorem handleResponse_log (debug : Bool) (res : HttpResponse)
    (decodeOut : Json → Option α) (out : α) :
    (handleResponse debug res decodeOut out).1 =
      if debug then [LogRecord.response res.statusCode res.body] else [] := by
  unfold handleResponse
  dsimp only
  split
  · rfl
  · split
    · rfl
    · split
      · rfl
      · split
        · rfl
        · split
          · rfl
          · rfl

/-- The scenario-E response body `\x7b"code":1,"msg":"collection not exist"\x7d`. -/
def scenarioEBody : Json :=
  .obj [("code", .num 1), ("msg", .str "collection not exist")]

/-- C1: `handleResponse` classifies every response exactly as specified: a
non-2xx status yields a Transport Error carrying the raw status and body; a
2xx status with a body that is not valid JSON yields a Malformed Response
Error; a valid envelope with non-zero code yields a Service Error carrying
that code and message; with code zero the full body is decoded into the
output, a failure there being a Malformed Response Error; and the call
succeeds exactly when the status is 2xx, the body parses, the envelope code
is 0, and the result decode succeeds. -/
theorem handleResponse_classification {α : Type} (debug : Bool)
    (res : HttpResponse) (decodeOut : Json → Option α) (out : α) :
    (res.statusCode / 100 ≠ 2 →
      (handleResponse debug res decodeOut out).2 =
        (out, some (.transportError res.statusCode res.body)))
  ∧ (∀ raw, res.statusCode / 100 = 2 → res.body = .invalid raw →
      (handleResponse debug res decodeOut out).2 =
        (out, some (.invalidContent (.invalid raw))) ∧
      (GoError.invalidContent (.invalid raw)).isMalformedResponse = true)
  ∧ (∀ j code msg, res.statusCode / 100 = 2 → res.body = .parsed j →
      decodeCommonRes j = some (code, msg) → code ≠ 0 →
      (handleResponse debug res decodeOut out).2 =
        (out, some (.serviceError code msg)))
  ∧ (∀ j msg, res.statusCode / 100 = 2 → res.body = .parsed j →
      decodeCommonRes j = some (0, msg) →
      ((handleResponse debug res decodeOut out).2 =
        match decodeOut j with
        | none => (out, some (.unmarshalFailed (.parsed j)))
        | some v => (v, none)) ∧
      (GoError.unmarshalFailed (.parsed j)).isMalformedResponse = true)
  ∧ (((handleResponse debug res decodeOut out).2.2 = none) ↔
      (res.statusCode / 100 = 2 ∧ ∃ j msg v, res.body = .parsed j ∧
        decodeCommonRes j = some (0, msg) ∧ decodeOut j = some v)) := by
  obtain ⟨sc, body⟩ := res
  refine ⟨?_, ?_, ?_, ?_, ?_⟩
  · intro h
    simp [handleResponse_val, h]
  · intro raw h hb
    subst hb
    exact ⟨by simp [handleResponse_val, h], rfl⟩
  · intro j code msg h hb hc hcode
    subst hb
    simp [handleResponse_val, h, hc, hcode]
  · intro j msg h hb hc
    subst hb
    refine ⟨?_, rfl⟩
    cases hd : decodeOut j <;> simp [handleResponse_val, h, hc, hd]
  · by_cases hs : sc / 100 = 2
    · cases body with
      | invalid raw => simp [handleResponse_val, hs]
      | parsed j =>
          cases hc : decodeCommonRes j with
          | none => simp [handleResponse_val, hs, hc]
          | some p =>
              obtain ⟨code, msg⟩ := p
              by_cases hcode : code = 0
              · subst hcode
                cases hd : decodeOut j with
                | none => simp [handleResponse_val, hs, hc, hd]
                | some v => simp [handleResponse_val, hs, hc, hd]
              · simp [handleResponse_val, hs, hc, hcode, Ne.symm hcode]
    · simp [handleResponse_val, hs]

/-- Witness for C1: the four classifications at concrete responses — a 500
with raw body, a 200 with invalid JSON, a 200 with the scenario-E service
error, and a 200 with a successful empty envelope. -/
theorem handleResponse_classification_witness :
    (handleResponse false ⟨500, .invalid "boom"⟩ (fun _ => some (7 : Int)) 0).2 =
        (0, some (.transportError 500 (.invalid "boom")))
  ∧ (handleResponse false ⟨200, .invalid "<html>"⟩ (fun _ => some (7 : Int)) 0).2 =
        (0, some (.invalidContent (.invalid "<html>")))
  ∧ (handleResponse false ⟨200, .parsed scenarioEBody⟩ (fun _ => some (7 : Int)) 0).2 =
        (0, some (.serviceError 1 "collection not exist"))
  ∧ (handleResponse false ⟨200, .parsed (.obj [])⟩ (fun _ => some (7 : Int)) 0).2 =
        (7, none) :=
  ⟨(handleResponse_classification false ⟨500, .invalid "boom"⟩ (fun _ => some (7 : Int)) 0).1
      (by decide),
   ((handleResponse_classification false ⟨200, .invalid "<html>"⟩ (fun _ => some (7 : Int)) 0).2.1
      "<html>" (by decide) rfl).1,
   (handleResponse_classification false ⟨200, .parsed scenarioEBody⟩ (fun _ => some (7 : Int)) 0).2.2.1
      scenarioEBody 1 "collection not exist" (by decide) rfl (by decide) (by decide),
   ((handleResponse_classification false ⟨200, .parsed (.obj [])⟩ (fun _ => some (7 : Int)) 0).2.2.2.1
      (.obj []) "" (by decide) rfl (by decide)).1⟩

/-- C2: whenever the envelope of a 2xx response decodes with a non-zero code,
`handleResponse` returns the Service Error carrying that code and message
verbatim, and the caller's output value is returned exactly as it came in —
no partial decode ever touches it.  In particular, the scenario-E body
`\x7b"code":1,"msg":"collection not exist"\x7d` yields the Service Error with
message "collection not exist" and leaves the output at its initial (zero)
value. -/
theorem handleResponse_serviceError_no_decode {α : Type} (debug : Bool)
    (res : HttpResponse) (decodeOut : Json → Option α) (out : α)
    (j : Json) (code : Int) (msg : String) :
    (res.statusCode / 100 = 2 → res.body = .parsed j →
      decodeCommonRes j = some (code, msg) → code ≠ 0 →
      (handleResponse debug res decodeOut out).2 =
        (out, some (.serviceError code msg)))
  ∧ (handleResponse debug ⟨200, .parsed scenarioEBody⟩ decodeOut out).2 =
      (out, some (.serviceError 1 "collection not exist")) := by
  constructor
  · intro hs hb hc hcode
    rw [handleResponse_val, if_neg (by simp [hs]), hb]
    simp only [hc, if_pos hcode]
  · rw [handleResponse_val]
    rw [if_neg (by decide)]
    have hc : decodeCommonRes scenarioEBody = some (1, "collection not exist") := by decide
    simp only [hc]
    rw [if_pos (by decide)]

/-- Witness for C2: scenario E at a concrete output type — the output stays
at its zero value 0 and the error is the verbatim Service Error — and the
general clause applied to a second concrete envelope with code 2. -/
theorem handleResponse_serviceError_no_decode_witness :
    ((handleResponse false ⟨200, .parsed scenarioEBody⟩ (fun _ => some (99 : Int)) 0).2 =
      (0, some (.serviceError 1 "collection not exist")))
  ∧ ((handleResponse false ⟨201, .parsed (.obj [("code", .num 2)])⟩
        (fun _ => some (99 : Int)) 0).2 = (0, some (.serviceError 2 ""))) :=
  ⟨(handleResponse_serviceError_no_decode false ⟨200, .parsed scenarioEBody⟩
      (fun _ => some (99 : Int)) 0 scenarioEBody 1 "collection not exist").2,
   (handleResponse_serviceError_no_decode false ⟨201, .parsed (.obj [("code", .num 2)])⟩
      (fun _ => some (99 : Int)) 0 (.obj [("code", .num 2)]) 2 "").1
      (by decide) rfl (by decide) (by decide)⟩

/-- C9: the debug flag never alters control flow.  For every client, request
value and transport behavior (hence every fixed wire response), the value
component of `Request` — the output value and the error — is identical with
debug on and off, and likewise for `handleResponse` at any response;
disabling debug produces no log records, and enabling it only adds the
outgoing method/path/body record and, once a response arrives, the incoming
status/body record. -/
theorem debug_only_observability {α : Type} (c : Client) (req : ApiRequest)
    (transport : WireRequest → Option HttpResponse)
    (decodeOut : Json → Option α) (out : α) :
    ((Request { c with debug := true } req transport decodeOut out).2 =
      (Request { c with debug := false } req transport decodeOut out).2)
  ∧ (∀ res : HttpResponse,
      (handleResponse true res decodeOut out).2 =
        (handleResponse false res decodeOut out).2)
  ∧ ((Request { c with debug := false } req transport decodeOut out).1 = [])
  ∧ (req.body = none →
      (Request { c with debug := true } req transport decodeOut out).1 = [])
  ∧ (∀ b, req.body = some b →
      transport (mkWireRequest { c with debug := true } req b) = none →
      (Request { c with debug := true } req transport decodeOut out).1 =
        [.request req.method req.path b])
  ∧ (∀ b res, req.body = some b →
      transport (mkWireRequest { c with debug := true } req b) = some res →
      (Request { c with debug := true } req transport decodeOut out).1 =
        [.request req.method req.path b, .response res.statusCode res.body]) := by
  have hwire : ∀ d : Bool, mkWireRequest { c with debug := d } req
      = mkWireRequest c req := by
    intro d; rfl
  refine ⟨?_, ?_, ?_, ?_, ?_, ?_⟩
  · unfold Request
    cases hb : req.body with
    | none => rfl
    | some b =>
        dsimp only
        simp only [hwire]
        cases ht : transport (mkWireRequest c req b) with
        | none => rfl
        | some res =>
            dsimp only
            have h2 : (handleResponse true res decodeOut out).2 =
                (handleResponse false res decodeOut out).2 := by
              rw [handleResponse_val, handleResponse_val]
            exact congrArg (fun x => (x.1, x.2)) h2
  · intro res
    rw [handleResponse_val, handleResponse_val]
  · unfold Request
    cases hb : req.body with
    | none => rfl
    | some b =>
        dsimp only
        cases ht : transport (mkWireRequest { c with debug := false } req b) with
        | none => rfl
        | some res =>
            dsimp only
            rw [handleResponse_log]
            rfl
  · intro hb
    unfold Request
    rw [hb]
  · intro b hb ht
    unfold Request
    rw [hb]
    dsimp only
    rw [ht]
    rfl
  · intro b res hb ht
    unfold Request
    rw [hb]
    dsimp only
    rw [ht]
    dsimp only
    rw [handleResponse_log]
    rfl

/-- Witness for C9: a concrete client, request and transport — the debug run
returns the same value as the silent run and logs exactly the request and
response records. -/
theorem debug_only_observability_witness :
    ((Request { url := "http://h", username := "u", key := "k",
                option := defaultOption, debug := true }
        ⟨"post", "/alias/set", some (.obj [])⟩
        (fun _ => some ⟨200, .parsed (.obj [])⟩) (fun _ => some (5 : Int)) 0).2 =
     (Request { url := "http://h", username := "u", key := "k",
                option := defaultOption, debug := false }
        ⟨"post", "/alias/set", some (.obj [])⟩
        (fun _ => some ⟨200, .parsed (.obj [])⟩) (fun _ => some (5 : Int)) 0).2)
  ∧ ((Request { url := "http://h", username := "u", key := "k",
                option := defaultOption, debug := true }
        ⟨"post", "/alias/set", some (.obj [])⟩
        (fun _ => some ⟨200, .parsed (.obj [])⟩) (fun _ => some (5 : Int)) 0).1 =
      [.request "post" "/alias/set" (.obj []),
       .response 200 (.parsed (.obj []))])
  ∧ ((Request { url := "http://h", username := "u", key := "k",
                option := defaultOption, debug := true }
        ⟨"get", "/p", none⟩
        (fun _ => some ⟨200, .parsed (.obj [])⟩) (fun _ => some (5 : Int)) 0).1 = [])
  ∧ ((Request { url := "http://h", username := "u", key := "k",
                option := defaultOption, debug := true }
        ⟨"post", "/alias/set", some (.obj [])⟩
        (fun _ => none) (fun _ => some (5 : Int)) 0).1 =
      [.request "post" "/alias/set" (.obj [])]) :=
  ⟨(debug_only_observability
      { url := "http://h", username := "u", key := "k",
        option := defaultOption, debug := true }
      ⟨"post", "/alias/set", some (.obj [])⟩
      (fun _ => some ⟨200, .parsed (.obj [])⟩) (fun _ => some (5 : Int)) 0).1,
   (debug_only_observability
      { url := "http://h", username := "u", key := "k",
        option := defaultOption, debug := true }
      ⟨"post", "/alias/set", some (.obj [])⟩
      (fun _ => some ⟨200, .parsed (.obj [])⟩) (fun _ => some (5 : Int)) 0).2.2.2.2.2
      (.obj []) ⟨200, .parsed (.obj [])⟩ rfl rfl,
   (debug_only_observability
      { url := "http://h", username := "u", key := "k",
        option := defaultOption, debug := true }
      ⟨"get", "/p", none⟩
      (fun _ => some ⟨200, .parsed (.obj [])⟩) (fun _ => some (5 : Int)) 0).2.2.2.1 rfl,
   (debug_only_observability
      { url := "http://h", username := "u", key := "k",
        option := defaultOption, debug := true }
      ⟨"post", "/alias/set", some (.obj [])⟩
      (fun _ => none) (fun _ => some (5 : Int)) 0).2.2.2.2.1 (.obj []) rfl rfl⟩

/-- C3: on a Database handle whose kind is AI, the gated `SetAlias` and
`DeleteAlias` fail immediately with `AIDbTypeError` for every collection and
alias argument and every dispatcher behavior, and the dispatcher is invoked
zero times — no network call is made. -/
theorem gated_alias_ai_rejected (db : Database) (collectionName aliasName : String)
    (reqS : SetReq → SetRes × Option GoError)
    (reqD : DeleteReq → DeleteRes × Option GoError)
    (h : IsAIDatabase db = true) :
    gatedSetAlias db collectionName aliasName reqS = ((none, some .aiDbTypeError), 0) ∧
    gatedDeleteAlias db aliasName reqD = ((none, some .aiDbTypeError), 0) := by
  unfold gatedSetAlias gatedDeleteAlias
  rw [h]
  exact ⟨rfl, rfl⟩

/-- Witness for C3: a concrete AI database handle is rejected locally with
zero dispatcher calls. -/
theorem gated_alias_ai_rejected_witness :
    gatedSetAlias ⟨"db0", .ai⟩ "coll" "al" (fun _ => (⟨0⟩, none)) =
      ((none, some .aiDbTypeError), 0) ∧
    gatedDeleteAlias ⟨"db0", .ai⟩ "al" (fun _ => (⟨0⟩, none)) =
      ((none, some .aiDbTypeError), 0) :=
  gated_alias_ai_rejected ⟨"db0", .ai⟩ "coll" "al"
    (fun _ => (⟨0⟩, none)) (fun _ => (⟨0⟩, none)) rfl

/-- C10: in the non-gated database-scoped alias implementation, a dispatch
error is returned together with a non-nil result whose AffectedCount is 0
(the pre-allocated zero value), the error itself propagated unmodified; the
response's AffectedCount is copied into the result only on success. -/
theorem engine_alias_error_propagation
    (databaseName collectionName aliasName : String)
    (reqS : SetReq → SetRes × Option GoError)
    (reqD : DeleteReq → DeleteRes × Option GoError) :
    (∀ res e, reqS ⟨databaseName, collectionName, aliasName⟩ = (res, some e) →
      engineSetAlias databaseName collectionName aliasName reqS = (some ⟨0⟩, some e))
  ∧ (∀ res, reqS ⟨databaseName, collectionName, aliasName⟩ = (res, none) →
      engineSetAlias databaseName collectionName aliasName reqS =
        (some ⟨res.AffectedCount⟩, none))
  ∧ (∀ res e, reqD ⟨databaseName, aliasName⟩ = (res, some e) →
      engineDeleteAlias databaseName aliasName reqD = (some ⟨0⟩, some e))
  ∧ (∀ res, reqD ⟨databaseName, aliasName⟩ = (res, none) →
      engineDeleteAlias databaseName aliasName reqD =
        (some ⟨res.AffectedCount⟩, none)) := by
  refine ⟨?_, ?_, ?_, ?_⟩
  · intro res e h
    simp [engineSetAlias, h]
  · intro res h
    simp [engineSetAlias, h]
  · intro res e h
    simp [engineDeleteAlias, h]
  · intro res h
    simp [engineDeleteAlias, h]

/-- Witness for C10: a failing dispatch yields the zero-valued result and the
unmodified error; a successful one copies the affected count. -/
theorem engine_alias_error_propagation_witness :
    (engineSetAlias "db" "c" "a" (fun _ => (⟨3⟩, some .httpDoError)) =
      (some ⟨0⟩, some .httpDoError))
  ∧ (engineSetAlias "db" "c" "a" (fun _ => (⟨7⟩, none)) = (some ⟨7⟩, none))
  ∧ (engineDeleteAlias "db" "a" (fun _ => (⟨2⟩, some .httpDoError)) =
      (some ⟨0⟩, some .httpDoError))
  ∧ (engineDeleteAlias "db" "a" (fun _ => (⟨4⟩, none)) = (some ⟨4⟩, none)) :=
  ⟨(engine_alias_error_propagation "db" "c" "a"
      (fun _ => (⟨3⟩, some .httpDoError)) (fun _ => (⟨0⟩, none))).1
      ⟨3⟩ .httpDoError rfl,
   (engine_alias_error_propagation "db" "c" "a"
      (fun _ => (⟨7⟩, none)) (fun _ => (⟨0⟩, none))).2.1 ⟨7⟩ rfl,
   (engine_alias_error_propagation "db" "c" "a"
      (fun _ => (⟨0⟩, none)) (fun _ => (⟨2⟩, some .httpDoError))).2.2.1
      ⟨2⟩ .httpDoError rfl,
   (engine_alias_error_propagation "db" "c" "a"
      (fun _ => (⟨0⟩, none)) (fun _ => (⟨4⟩, none))).2.2.2 ⟨4⟩ rfl⟩

/-- Helper: a substring of `s` is a substring of `t ++ s`. -/
theorem stringContains_append (t s sub : String)
    (h : stringContains s sub = true) : stringContains (t ++ s) sub = true := by
  unfold stringContains at h ⊢
  rw [decide_eq_true_eq] at h ⊢
  obtain ⟨p, q, hpq⟩ := h
  refine ⟨t.toList ++ p, q, ?_⟩
  have happ : (t ++ s).toList = t.toList ++ s.toList := by
    simp [String.toList, String.data_append]
  rw [happ, ← hpq]
  simp [List.append_assoc]

/-- Counterexample for C4: at a concrete dispatch behavior answering the drop
of "dbtest1" with the Service Error `(1, "database not exist")`, the engine
`DropDatabase` surfaces no error, but its complete caller-visible return — the
Go signature declares only `(err error)` — contains no result value, so the
claim's "returns a result with affected-count 0" fails. -/
theorem dropDatabase_result_counterexample :
    ¬ ((engineDropDatabaseReturn
          (fun _ => (⟨0⟩, some (.serviceError 1 "database not exist"))) "dbtest1").2 = none
       ∧ ∃ r : DropRes,
          (engineDropDatabaseReturn
            (fun _ => (⟨0⟩, some (.serviceError 1 "database not exist"))) "dbtest1").1 = some r
          ∧ r.AffectedCount = 0) := by
  rintro ⟨h1, r, h2, h3⟩
  simp [engineDropDatabaseReturn] at h2

/-- C4 amended: whenever dropping a name is answered with a Service Error
whose message contains "not exist", the engine `DropDatabase` surfaces no
error to the caller (it returns nil); the dispatch behaviors seen by a first
and a second call (`req1`, `req2`) may differ, and as long as both are of the
"not exist" shape both calls return nil, so drop is safely callable twice;
`DropDatabase` returns only this error value and no result (see the
counterexample). -/
theorem dropDatabase_notExist_idempotent (name : String)
    (req1 req2 : DropReq → DropRes × Option GoError) :
    (∀ res code msg, req1 ⟨name⟩ = (res, some (.serviceError code msg)) →
      stringContains msg "not exist" = true → engineDropDatabase req1 name = none)
  ∧ (∀ res code msg, req2 ⟨name⟩ = (res, some (.serviceError code msg)) →
      stringContains msg "not exist" = true → engineDropDatabase req2 name = none) := by
  have main : ∀ (req : DropReq → DropRes × Option GoError) res code msg,
      req ⟨name⟩ = (res, some (.serviceError code msg)) →
      stringContains msg "not exist" = true → engineDropDatabase req name = none := by
    intro req res code msg h hc
    simp only [engineDropDatabase, h, GoError.message]
    rw [if_pos (stringContains_append _ _ _ hc)]
  exact ⟨main req1, main req2⟩

/-- Witness for C4: the concrete "database not exist" Service Error is
absorbed on a first and on a second call — the caller sees a nil error both
times. -/
theorem dropDatabase_notExist_idempotent_witness :
    (engineDropDatabase
      (fun _ => (⟨0⟩, some (.serviceError 1 "database not exist"))) "dbtest1" = none)
  ∧ (engineDropDatabase
      (fun _ => (⟨0⟩, some (.serviceError 5 "db still not exist"))) "dbtest1" = none) :=
  ⟨(dropDatabase_notExist_idempotent "dbtest1"
      (fun _ => (⟨0⟩, some (.serviceError 1 "database not exist")))
      (fun _ => (⟨0⟩, some (.serviceError 5 "db still not exist")))).1
      ⟨0⟩ 1 "database not exist" rfl (by decide),
   (dropDatabase_notExist_idempotent "dbtest1"
      (fun _ => (⟨0⟩, some (.serviceError 1 "database not exist")))
      (fun _ => (⟨0⟩, some (.serviceError 5 "db still not exist")))).2
      ⟨0⟩ 5 "db still not exist" rfl (by decide)⟩

/-- Counterexample for C8: even a successful drop returns no result value to
the caller — the engine `DropDatabase`'s only return is the error — so "every
mutating operation returns a result value carrying an affected-count" fails
at `DropDatabase` on "dbtest2". -/
theorem mutating_result_counterexample :
    ¬ ∃ r : DropRes,
        (engineDropDatabaseReturn (fun _ => (⟨1⟩, none)) "dbtest2").1 = some r := by
  rintro ⟨r, h⟩
  simp [engineDropDatabaseReturn] at h

/-- C8 amended: among the mutating operations whose implementations are in
`src/`, the alias operations return a non-nil result carrying an
AffectedCount field in every dispatcher outcome (the gated generation
excepted on its AI rejection, which returns a nil result) — even when the
call fails and no payload was decoded — while the engine `DropDatabase`
returns no result value at all. -/
theorem alias_ops_return_result
    (db : Database) (databaseName collectionName aliasName : String)
    (reqS : SetReq → SetRes × Option GoError)
    (reqD : DeleteReq → DeleteRes × Option GoError) :
    ((engineSetAlias databaseName collectionName aliasName reqS).1.isSome = true)
  ∧ ((engineDeleteAlias databaseName aliasName reqD).1.isSome = true)
  ∧ (IsAIDatabase db = false →
      ((gatedSetAlias db collectionName aliasName reqS).1.1.isSome = true)
    ∧ ((gatedDeleteAlias db aliasName reqD).1.1.isSome = true))
  ∧ (∀ req name, (engineDropDatabaseReturn req name).1 = none) := by
  refine ⟨?_, ?_, ?_, ?_⟩
  · cases hr : reqS ⟨databaseName, collectionName, aliasName⟩ with
    | mk res err => cases err <;> simp [engineSetAlias, hr]
  · cases hr : reqD ⟨databaseName, aliasName⟩ with
    | mk res err => cases err <;> simp [engineDeleteAlias, hr]
  · intro hai
    constructor
    · cases hr : reqS ⟨db.DatabaseName, collectionName, aliasName⟩ with
      | mk res err => cases err <;> simp [gatedSetAlias, hai, hr]
    · cases hr : reqD ⟨db.DatabaseName, aliasName⟩ with
      | mk res err => cases err <;> simp [gatedDeleteAlias, hai, hr]
  · intro req name
    rfl

/-- Witness for C8: a base-kind database's gated SetAlias returns a non-nil
result even when the dispatch fails. -/
theorem alias_ops_return_result_witness :
    ((gatedSetAlias ⟨"db0", .base⟩ "c" "a"
        (fun _ => (⟨0⟩, some .httpDoError))).1).1.isSome = true :=
  ((alias_ops_return_result ⟨"db0", .base⟩ "db0" "c" "a"
      (fun _ => (⟨0⟩, some .httpDoError)) (fun _ => (⟨0⟩, none))).2.2.1 rfl).1

end Vdb
